import Mathlib

/-!
Verification of the Focalize background polling and cache-reconciliation
engine.

Shallow embedding of the cache reconciler, read-state tracker, scheduler glue,
pending-action state machine and badge updater of the Focalize browser
extension, together with proofs and refutations of the specified properties.

Conventions of the embedding:
* Chrome local/sync storage values are passed and returned explicitly; a key
  that may be absent is an `Option`.
* JavaScript object maps (read-timestamp map, pending-action map, the alarm
  registry) are association lists observed through `List.lookup`; an update
  conses the new binding in front, which shadows any older binding exactly as
  a JS property assignment does.
* ISO date-time strings are represented by natural numbers; the only
  operations the code performs on them are comparisons via `DateTime.fromISO`.
-/

/-- The discriminant (`__typename`) of a notification fragment. -/
inductive NotificationKind where
  | follow
  | reaction
  | acted
  | comment
  | mention
  | mirror
  | quote
deriving DecidableEq, Repr

/-- A v2 `NotificationFragment` as seen by the cache reconciler: only the
stable identity, the discriminant and the event time extracted by
`getEventTime` are observed.  `eventTime` is the timestamp carried by the
kind-specific payload (comment/publication `createdAt`, `reactedAt`,
`actedAt`, `mirroredAt`); follow notifications carry none. -/
structure NotificationFragment where
  id : String
  kind : NotificationKind
  eventTime : Option Nat
deriving DecidableEq, Repr

/-- `getEventTime` from `lens-notifications.ts`: the switch has no case for
`FollowNotification`, so a follow falls through to `undefined`. -/
def getEventTime (n : NotificationFragment) : Option Nat :=
  match n.kind with
  | .follow => none
  | _ => n.eventTime

/-- `PaginatedResultInfoFragment`: opaque forward/backward cursors. -/
structure PageInfo where
  prev : Option String
  next : Option String
deriving DecidableEq, Repr

/-- `PaginatedResult<NotificationFragment>`: one fetched page. -/
structure PaginatedResult where
  items : List NotificationFragment
  pageInfo : PageInfo
deriving DecidableEq, Repr

/-- The slice of `chrome.storage.local` owned by the notification cache:
`KEY_NOTIFICATION_ITEMS_CACHE`, `KEY_NOTIFICATION_PAGE_INFO_CACHE` and
`KEY_NOTIFICATION_LATEST_TIMESTAMP`.  `none` means the key is unset. -/
structure NotifState where
  itemsCache : Option (List NotificationFragment)
  pageInfoCache : Option PageInfo
  latestTimestamp : Option Nat
deriving DecidableEq, Repr

/-- The identities present in the cache (`cachedIds` in the source, built
from `storage[KEY_NOTIFICATION_ITEMS_CACHE] || []`). -/
def cachedIdsOf (st : NotifState) : List String :=
  (st.itemsCache.getD []).map (·.id)

/-- `cacheNotifications` from `lens-notifications.ts` (lines 47-95).
An empty page returns at once; otherwise the page is filtered to items whose
id is not already cached; if nothing novel remains, nothing is written;
otherwise the page info is adopted wholesale when none is cached, or only the
cursor on the fetched side is replaced, and the novel items are concatenated
in front (prepend) or behind (append) the cached items. -/
def cacheNotifications (st : NotifState) (notificationRes : PaginatedResult)
    (prepend : Bool) : NotifState :=
  if notificationRes.items.isEmpty then st
  else
    let notificationItemsCache := st.itemsCache.getD []
    let cachedIds := notificationItemsCache.map (·.id)
    let newItems :=
      notificationRes.items.filter (fun n => ¬ cachedIds.contains n.id)
    if newItems.isEmpty then st
    else
      let pageInfo : PageInfo :=
        match st.pageInfoCache with
        | none => notificationRes.pageInfo
        | some pi =>
            if prepend then { pi with prev := notificationRes.pageInfo.prev }
            else { pi with next := notificationRes.pageInfo.next }
      { st with
        pageInfoCache := some pageInfo
        itemsCache := some (if prepend then newItems ++ notificationItemsCache
          else notificationItemsCache ++ newItems) }

/-- A sequence of merges: each element is a fetched page together with its
direction flag (`true` = prepend). -/
def mergeAll (st : NotifState) (ops : List (PaginatedResult × Bool)) :
    NotifState :=
  ops.foldl (fun s op => cacheNotifications s op.1 op.2) st

/-- The novel part of a fetched page: the `newItems` filter of
`cacheNotifications`, extracted for reuse in statements. -/
def newItemsOf (st : NotifState) (res : PaginatedResult) :
    List NotificationFragment :=
  res.items.filter (fun n => ¬ (cachedIdsOf st).contains n.id)

/-- The page info stored by a successful merge: adopted wholesale when no
page info is cached, otherwise only the cursor on the fetched side moves. -/
def pageInfoMergeOf (st : NotifState) (res : PaginatedResult)
    (prepend : Bool) : PageInfo :=
  match st.pageInfoCache with
  | none => res.pageInfo
  | some pi =>
      if prepend then { pi with prev := res.pageInfo.prev }
      else { pi with next := res.pageInfo.next }

/-- A two-merge sequence (one prepend, one append, with overlapping ids)
used to witness the amended C1. -/
def opsC1 : List (PaginatedResult × Bool) :=
  [(⟨[⟨"a", .comment, some 5⟩, ⟨"b", .follow, none⟩], ⟨some "p1", some "n1"⟩⟩,
    true),
   (⟨[⟨"b", .follow, none⟩, ⟨"c", .mirror, some 2⟩], ⟨some "p2", some "n2"⟩⟩,
    false)]

/-- Concrete cache and all-duplicate page witnessing C2. -/
def stC2 : NotifState :=
  ⟨some [⟨"a", .comment, some 3⟩, ⟨"b", .reaction, some 2⟩],
    some ⟨some "p0", some "n0"⟩, some 3⟩

/-- A page whose two items are both already cached, arriving with fresh
cursors that must nevertheless be ignored. -/
def pageC2 : PaginatedResult :=
  ⟨[⟨"b", .reaction, some 2⟩, ⟨"a", .comment, some 3⟩],
    ⟨some "pNew", some "nNew"⟩⟩

/-- The spec's scenario: a cache of three items with stored cursors. -/
def stC3 : NotifState :=
  ⟨some [⟨"a", .comment, some 3⟩, ⟨"b", .reaction, some 2⟩,
      ⟨"c", .mirror, some 1⟩],
    some ⟨some "p0", some "n0"⟩, some 3⟩

/-- A prepend-fetched page with two novel items and one duplicate. -/
def pageC3 : PaginatedResult :=
  ⟨[⟨"x", .mention, some 9⟩, ⟨"y", .follow, none⟩, ⟨"a", .comment, some 3⟩],
    ⟨some "p1", some "n1"⟩⟩

/-- Per-kind notification display preferences read from sync storage.
`none` models an unset key; the source tests `!== false`, so only an
explicit `false` disables a kind. -/
structure NotifPreferences where
  notificationsForFollows : Option Bool
  notificationsForReactions : Option Bool
  notificationsForCollects : Option Bool
  notificationsForComments : Option Bool
  notificationsForMentions : Option Bool
  notificationsForMirrors : Option Bool
  notificationsForQuotes : Option Bool
deriving DecidableEq, Repr

/-- The per-kind switch of the `filteredNotifications` filter in
`getNewNotifications` (lines 205-226). -/
def passesKindFilter (prefs : NotifPreferences) (n : NotificationFragment) :
    Bool :=
  match n.kind with
  | .follow => prefs.notificationsForFollows ≠ some false
  | .reaction => prefs.notificationsForReactions ≠ some false
  | .acted => prefs.notificationsForCollects ≠ some false
  | .comment => prefs.notificationsForComments ≠ some false
  | .mention => prefs.notificationsForMentions ≠ some false
  | .mirror => prefs.notificationsForMirrors ≠ some false
  | .quote => prefs.notificationsForQuotes ≠ some false

/-- The `{notifications?, cursor?}` object returned by
`getNewNotifications`; both fields are absent on the `{}` returns. -/
structure NewNotificationsResult where
  notifications : Option (List NotificationFragment)
  cursor : Option String
deriving DecidableEq, Repr

/-- `getPaginatedNotificationResult` (lines 97-131).  The authentication
check and the upstream fetch are external collaborators, so they enter as
the `authenticated` flag and the nullable (errors become `none`) `fetched`
result.  A non-null result is merged into the cache before being
returned. -/
def getPaginatedNotificationResult (st : NotifState) (authenticated : Bool)
    (fetched : Option PaginatedResult) (prepend : Bool) :
    Option PaginatedResult × NotifState :=
  if !authenticated then (none, st)
  else
    match fetched with
    | some res => (some res, cacheNotifications st res prepend)
    | none => (none, st)

/-- `getNewNotifications` (lines 133-232).  The items cache and the latest
timestamp are read before the fetch-and-merge; with no prior cache the
function returns `{}`.  Otherwise the fetched page is cut at the first item
whose event time exceeds the cached latest timestamp, the latest timestamp
is advanced to the first timestamped new notification, and the (optionally
kind-filtered) new notifications are returned with the page's prev
cursor. -/
def getNewNotifications (st : NotifState) (authenticated : Bool)
    (fetched : Option PaginatedResult) (filter : Bool)
    (prefs : NotifPreferences) : NewNotificationsResult × NotifState :=
  let cachedItems := st.itemsCache
  let cachedLatestTimestamp := st.latestTimestamp
  let fetchRes := getPaginatedNotificationResult st authenticated fetched true
  let st1 := fetchRes.2
  match cachedItems, fetchRes.1 with
  | none, _ => (⟨none, none⟩, st1)
  | some _, none => (⟨none, none⟩, st1)
  | some _, some res =>
      let notifications :=
        match cachedLatestTimestamp with
        | none => res.items
        | some ts =>
            match res.items.findIdx? (fun item =>
                match getEventTime item with
                | some t => ts < t
                | none => false) with
            | none => []
            | some i => res.items.take i
      let st2 :=
        if notifications.length ≠ 0 then
          match notifications.find? (fun n => (getEventTime n).isSome) with
          | some n =>
              match getEventTime n with
              | some t => { st1 with latestTimestamp := some t }
              | none => st1
          | none => st1
        else st1
      if !filter then (⟨some notifications, res.pageInfo.prev⟩, st2)
      else
        (⟨some (notifications.filter (passesKindFilter prefs)),
          res.pageInfo.prev⟩, st2)

/-- All display preferences left unset (every kind enabled). -/
def prefsAll : NotifPreferences := ⟨none, none, none, none, none, none, none⟩

/-- The first page ever fetched, for the C10 witness. -/
def pageC10 : PaginatedResult :=
  ⟨[⟨"a", .comment, some 4⟩, ⟨"b", .follow, none⟩], ⟨some "p", some "n"⟩⟩

/-- `MessageTimestampMap` (`xmtp-service.ts`): thread topic → epoch millis
last read.  An association list observed through `List.lookup`; consing a
binding shadows older ones exactly like a JS property assignment. -/
abbrev MessageTimestampMap := List (String × Nat)

/-- JS object property assignment `readTimestamps[topic] = v`. -/
def setTimestamp (m : MessageTimestampMap) (k : String) (v : Nat) :
    MessageTimestampMap :=
  (k, v) :: m

/-- `CompactMessage` (`xmtp-service.ts` lines 47-52). -/
structure CompactMessage where
  timestamp : Nat
  contentTopic : String
  content : String
  senderAddress : String
deriving DecidableEq, Repr

/-- A `Thread` as consumed by the read-state tracker; the conversation and
peer fields do not participate in `markAllAsRead`/`isUnread` and are
omitted from the projection. -/
structure Thread where
  unread : Option Bool
  latestMessage : Option CompactMessage
deriving DecidableEq, Repr

/-- The current user; only the wallet address is consulted here. -/
structure User where
  address : String
deriving DecidableEq, Repr

/-- `isUnread` (lines 174-189).  A null message or missing user yields
`false`; a message from the current user's own address yields `false`;
otherwise the message is unread iff its timestamp is strictly greater than
the stored read timestamp for its topic, defaulting to 0 when absent.  The
`readTimestamps` argument is the effective map (the source falls back to
the stored map, `?? {}`). -/
def isUnread (user : Option User) (message : Option CompactMessage)
    (readTimestamps : MessageTimestampMap) : Bool :=
  match message with
  | none => false
  | some msg =>
      match user with
      | none => false
      | some u =>
          if msg.senderAddress = u.address then false
          else (readTimestamps.lookup msg.contentTopic).getD 0 < msg.timestamp

/-- The body of the `threads.forEach` in `markAllAsRead` (lines 199-205):
a thread whose latest message exists and carries a truthy (non-zero)
timestamp overwrites the stored timestamp for its topic. -/
def writeReadTimestamp (acc : MessageTimestampMap) (thread : Thread) :
    MessageTimestampMap :=
  match thread.latestMessage with
  | some msg =>
      if msg.timestamp ≠ 0 then setTimestamp acc msg.contentTopic msg.timestamp
      else acc
  | none => acc

/-- `markAllAsRead` (lines 191-212): fold the write over all threads, clear
every thread's unread flag, persist and return. -/
def markAllAsRead (readTimestamps : MessageTimestampMap)
    (threads : List Thread) : MessageTimestampMap × List Thread :=
  (threads.foldl writeReadTimestamp readTimestamps,
    threads.map (fun t => { t with unread := some false }))

/-- The `getReadTimestamp` closure inside `getMessagesBatch`
(`xmtp-service.ts` lines 333-344): on the first-run flag, a topic whose
stored value is falsy (absent or 0) is seeded with the current wall-clock
time `now` (`new Date().getTime()`) and persisted; the returned start time
is the map entry after the possible seeding (`none` models the invalid
date `new Date(undefined)` when the topic is unseeded and seeding did not
fire). -/
def getReadTimestamp (readTimestamps : MessageTimestampMap) (topic : String)
    (isFirstRun : Bool) (now : Nat) : MessageTimestampMap × Option Nat :=
  let seeded :=
    if (readTimestamps.lookup topic).getD 0 = 0 ∧ isFirstRun then
      setTimestamp readTimestamps topic now
    else readTimestamps
  (seeded, seeded.lookup topic)

/-- The upstream XMTP batch query restricted to one topic (external
collaborator, §6): with a start time only messages at or after it are
returned; without one everything is. -/
def queryMessagesSince (messages : List CompactMessage)
    (startTime : Option Nat) : List CompactMessage :=
  match startTime with
  | none => messages
  | some t => messages.filter (fun msg => t ≤ msg.timestamp)

/-- One conversation's slice of `getMessagesBatch` (lines 318-383): on the
unread-only path the (possibly seeded) read timestamp becomes the query
start time; `peerOnly` then drops the user's own messages from the
result. -/
def getMessagesBatchConversation (readTimestamps : MessageTimestampMap)
    (topic : String) (address : String) (allMessages : List CompactMessage)
    (unreadOnly peerOnly isFirstRun : Bool) (now : Nat) :
    MessageTimestampMap × List CompactMessage :=
  let seeded :=
    if unreadOnly then getReadTimestamp readTimestamps topic isFirstRun now
    else (readTimestamps, none)
  let messages := queryMessagesSince allMessages seeded.2
  if peerOnly then
    (seeded.1, messages.filter (fun msg => msg.senderAddress ≠ address))
  else (seeded.1, messages)

/-- `chrome.alarms.create` options as used by `background.ts`: recurring
alarms carry `periodInMinutes` (with zero delay), pending-action retries
are one-shots with only `delayInMinutes: 1`. -/
structure AlarmInfo where
  periodInMinutes : Option Nat
  delayInMinutes : Option Nat
deriving DecidableEq, Repr

/-- The Chrome alarm registry: at most one alarm per name.  `create` with
an existing name replaces it; `clear` removes it. -/
abbrev AlarmMap := List (String × AlarmInfo)

/-- `chrome.alarms.clear(name)`. -/
def alarmsClear (alarms : AlarmMap) (name : String) : AlarmMap :=
  alarms.filter (fun p => p.1 ≠ name)

/-- `chrome.alarms.create(name, info)`: replaces any alarm of that name. -/
def alarmsCreate (alarms : AlarmMap) (name : String) (info : AlarmInfo) :
    AlarmMap :=
  (name, info) :: alarmsClear alarms name

def ALARM_ID_NOTIFICATIONS : String := "focalize-notifications-alarm"

def ALARM_ID_MESSAGES : String := "focalize-messages-alarm"

/-- `clearAlarm` (`background.ts` line 58). -/
def clearAlarm (alarms : AlarmMap) (name : String) : AlarmMap :=
  alarmsClear alarms name

/-- `setAlarm` (`background.ts` lines 60-67), translated exactly as
written: the body awaits `clearAlarm(ALARM_ID_NOTIFICATIONS)` — the
hard-coded notifications alarm name, not the `name` argument — and then
creates a periodic alarm under `name` with zero initial delay. -/
def setAlarm (alarms : AlarmMap) (name : String) (periodInMinutes : Nat) :
    AlarmMap :=
  alarmsCreate (clearAlarm alarms ALARM_ID_NOTIFICATIONS) name
    ⟨some periodInMinutes, some 0⟩

/-- `PendingProxyActionMap`: proxy action id → target handle, persisted in
local storage; association list with shadowing upserts and
delete-by-filter. -/
abbrev PendingProxyActionMap := List (String × String)

/-- `ProxyActionStatusTypes` from the GraphQL schema. -/
inductive ProxyActionStatusTypes where
  | Complete
  | Minting
  | Transferring
deriving DecidableEq, Repr

/-- The discriminated union returned by the `ProxyActionStatus` query. -/
inductive ProxyActionStatus where
  | proxyActionError
  | proxyActionQueued
  | proxyActionStatusResult (status : ProxyActionStatusTypes)
deriving DecidableEq, Repr

/-- The mutable background state touched by `checkProxyActionStatus`: the
persisted pending-action map, the alarm registry, and the ids of OS
notifications raised so far. -/
structure BackgroundState where
  pendingProxyActions : PendingProxyActionMap
  alarms : AlarmMap
  osNotifications : List String
deriving DecidableEq, Repr

/-- The `saveProxyAction` closure (`background.ts` lines 350-354):
last-writer-wins upsert of the handle under the action id. -/
def saveProxyAction (pending : PendingProxyActionMap)
    (proxyActionId handle : String) : PendingProxyActionMap :=
  (proxyActionId, handle) :: pending

/-- `delete pendingProxyActions[proxyActionId]` (line 365). -/
def pendingRemove (pending : PendingProxyActionMap)
    (proxyActionId : String) : PendingProxyActionMap :=
  pending.filter (fun p => p.1 ≠ proxyActionId)

/-- `checkProxyActionStatus` (`background.ts` lines 330-374).  An error
status raises a failure notification and falls through without touching
map or alarms; a queued or minting/transferring status upserts the action
and arms a one-shot alarm named by the action id one minute out; a
`Complete` result removes the action from the map and clears its alarm. -/
def checkProxyActionStatus (st : BackgroundState)
    (proxyActionId handle : String)
    (proxyActionStatus : ProxyActionStatus) : BackgroundState :=
  match proxyActionStatus with
  | .proxyActionError =>
      { st with osNotifications := "proxyActionError" :: st.osNotifications }
  | .proxyActionQueued =>
      { st with
        pendingProxyActions :=
          saveProxyAction st.pendingProxyActions proxyActionId handle
        alarms := alarmsCreate st.alarms proxyActionId ⟨none, some 1⟩ }
  | .proxyActionStatusResult s =>
      if s = .Complete then
        { st with
          pendingProxyActions :=
            pendingRemove st.pendingProxyActions proxyActionId
          alarms := alarmsClear st.alarms proxyActionId }
      else
        { st with
          pendingProxyActions :=
            saveProxyAction st.pendingProxyActions proxyActionId handle
          alarms := alarmsCreate st.alarms proxyActionId ⟨none, some 1⟩ }

/-- A v1 `Notification` as consulted by the badge counter and the click
handler: the stable id and the `createdAt` event time. -/
structure NotificationV1 where
  notificationId : String
  createdAt : Nat
deriving DecidableEq, Repr

/-- `getNotificationCountSinceLastOpened` (`background.ts` lines 136-154):
0 when the last-opened timestamp is unset or the cache is missing/empty;
otherwise the number of cached items created strictly after it. -/
def getNotificationCountSinceLastOpened
    (notificationItemsCache : Option (List NotificationV1))
    (notificationsTimestamp : Option Nat) : Nat :=
  match notificationsTimestamp with
  | none => 0
  | some ts =>
      match notificationItemsCache with
      | none => 0
      | some items =>
          if items.isEmpty then 0
          else (items.filter (fun n => ts < n.createdAt)).length

/-- The extension-action badge surface: the text and title last set;
`none` means never set. -/
structure BadgeState where
  text : Option String
  title : Option String
deriving DecidableEq, Repr

/-- `updateBadge` (`background.ts` lines 156-166): with no last-opened
timestamp the function returns at once, leaving the badge untouched;
otherwise it writes the count (rendered `"99+"` past 99, empty text at
zero) and always updates the title. -/
def updateBadge (badge : BadgeState)
    (notificationItemsCache : Option (List NotificationV1))
    (notificationsTimestamp : Option Nat) : BadgeState :=
  match notificationsTimestamp with
  | none => badge
  | some _ =>
      let newNotifications := getNotificationCountSinceLastOpened
        notificationItemsCache notificationsTimestamp
      let notificationsSize : String :=
        if newNotifications > 99 then "99+" else toString newNotifications
      { text := some (if newNotifications > 0 then notificationsSize else "")
        title := some (notificationsSize ++ " new notifications") }

theorem cacheNotifications_eq_shape (st : NotifState) (res : PaginatedResult)
    (prepend : Bool) :
    cacheNotifications st res prepend =
      if newItemsOf st res = [] then st
      else
        { st with
          pageInfoCache := some (pageInfoMergeOf st res prepend)
          itemsCache := some (if prepend then
              newItemsOf st res ++ st.itemsCache.getD []
            else st.itemsCache.getD [] ++ newItemsOf st res) } := by
  unfold cacheNotifications newItemsOf pageInfoMergeOf cachedIdsOf
  by_cases hempty : res.items = []
  · simp [hempty]
  · simp only [List.isEmpty_iff, hempty, if_false, List.isEmpty_iff]

theorem cacheNotifications_nodup_step (st : NotifState) (res : PaginatedResult)
    (prepend : Bool) (hst : (cachedIdsOf st).Nodup)
    (hres : (res.items.map (·.id)).Nodup) :
    (cachedIdsOf (cacheNotifications st res prepend)).Nodup := by
  rw [cacheNotifications_eq_shape]
  by_cases hne : newItemsOf st res = []
  · simpa [hne] using hst
  · rw [if_neg hne]
    have h1 : ((newItemsOf st res).map (·.id)).Nodup :=
      hres.sublist (List.Sublist.map _ (List.filter_sublist _))
    have h2 : ∀ x ∈ (newItemsOf st res).map (·.id), x ∉ cachedIdsOf st := by
      intro x hx
      simp only [newItemsOf, List.mem_map, List.mem_filter] at hx
      obtain ⟨n, ⟨-, hp⟩, rfl⟩ := hx
      simpa [List.elem_iff] using hp
    simp only [cachedIdsOf, Option.getD_some]
    cases prepend <;>
      simp only [if_true, if_false, Bool.false_eq_true, List.map_append,
        List.nodup_append] <;>
      refine ⟨?_, ?_, ?_⟩
    · exact hst
    · exact h1
    · intro x hx hx'
      exact h2 x hx' hx
    · exact h1
    · exact hst
    · intro x hx hx'
      exact h2 x hx hx'

/-- **C1** (corrected, counterexample): the claim quantifies over arbitrary
fetched pages, but `cacheNotifications` only filters a page against the ids
already cached, never within the page itself.  Starting from the
duplicate-free (empty) cache, merging a single page that contains two items
with identity `"a"` yields a cache holding the identity `"a"` twice. -/
theorem cacheNotifications_intra_page_dup_cex :
    (cachedIdsOf (⟨none, none, none⟩ : NotifState)).Nodup ∧
      ¬ (cachedIdsOf (mergeAll ⟨none, none, none⟩
          [(⟨[⟨"a", .comment, some 5⟩, ⟨"a", .follow, none⟩], ⟨none, none⟩⟩,
            true)])).Nodup := by
  decide

/-- **C1** (amended): for every sequence of merges whose fetched pages are
each internally duplicate-free, starting from a duplicate-free cache, the
resulting notification item cache never contains two items with the same
identity string. -/
theorem mergeAll_nodup_of_pages_nodup (st : NotifState)
    (ops : List (PaginatedResult × Bool)) (h0 : (cachedIdsOf st).Nodup)
    (hops : ∀ op ∈ ops, (op.1.items.map (·.id)).Nodup) :
    (cachedIdsOf (mergeAll st ops)).Nodup := by
  induction ops generalizing st with
  | nil => exact h0
  | cons op rest ih =>
      exact ih (cacheNotifications st op.1 op.2)
        (cacheNotifications_nodup_step st op.1 op.2 h0
          (hops op (List.mem_cons_self _ _)))
        (fun o ho => hops o (List.mem_cons_of_mem _ ho))

theorem mergeAll_nodup_of_pages_nodup_witness :
    (cachedIdsOf (⟨none, none, none⟩ : NotifState)).Nodup ∧
      (∀ op ∈ opsC1, (op.1.items.map (·.id)).Nodup) ∧
      (cachedIdsOf (mergeAll ⟨none, none, none⟩ opsC1)).Nodup :=
  ⟨by decide, by decide,
    mergeAll_nodup_of_pages_nodup ⟨none, none, none⟩ opsC1 (by decide)
      (by decide)⟩

/-- **C2** (confirmed): merging a page all of whose item identities are
already cached is a no-op for either direction: the whole stored state —
item sequence, both PageInfo cursors and the latest-seen timestamp — is
returned unchanged. -/
theorem cacheNotifications_noop_on_seen (st : NotifState)
    (res : PaginatedResult) (prepend : Bool)
    (hall : ∀ n ∈ res.items, n.id ∈ cachedIdsOf st) :
    cacheNotifications st res prepend = st := by
  rw [cacheNotifications_eq_shape]
  have hnil : newItemsOf st res = [] := by
    apply List.filter_eq_nil_iff.mpr
    intro n hn
    simp [List.elem_iff, hall n hn]
  simp [hnil]

theorem cacheNotifications_noop_on_seen_witness :
    (∀ n ∈ pageC2.items, n.id ∈ cachedIdsOf stC2) ∧
      cacheNotifications stC2 pageC2 true = stC2 ∧
      cacheNotifications stC2 pageC2 false = stC2 :=
  ⟨by decide, cacheNotifications_noop_on_seen stC2 pageC2 true (by decide),
    cacheNotifications_noop_on_seen stC2 pageC2 false (by decide)⟩

/-- **C3** (confirmed): when the merged page contains at least one novel
item, the novel items go to the front for prepend and to the back for
append with all existing items preserved, and the stored PageInfo is the
fetched page's wholesale when none was cached, else only the cursor on the
fetched side (`prev` for prepend, `next` for append) is replaced while the
opposite cursor is preserved. -/
theorem cacheNotifications_novel_merge (st : NotifState)
    (res : PaginatedResult) (prepend : Bool)
    (h : ∃ n ∈ res.items, n.id ∉ cachedIdsOf st) :
    (cacheNotifications st res prepend).itemsCache =
        some (if prepend then newItemsOf st res ++ st.itemsCache.getD []
          else st.itemsCache.getD [] ++ newItemsOf st res) ∧
      (cacheNotifications st res prepend).pageInfoCache =
        some (match st.pageInfoCache with
          | none => res.pageInfo
          | some pi =>
              if prepend then ⟨res.pageInfo.prev, pi.next⟩
              else ⟨pi.prev, res.pageInfo.next⟩) ∧
      (cacheNotifications st res prepend).latestTimestamp =
        st.latestTimestamp := by
  have hne : newItemsOf st res ≠ [] := by
    obtain ⟨n, hn, hid⟩ := h
    intro heq
    have hmem : n ∈ newItemsOf st res := by
      simp [newItemsOf, List.mem_filter, List.elem_iff, hn, hid]
    rw [heq] at hmem
    exact List.not_mem_nil n hmem
  rw [cacheNotifications_eq_shape, if_neg hne]
  refine ⟨rfl, ?_, rfl⟩
  cases hpi : st.pageInfoCache with
  | none => simp [pageInfoMergeOf, hpi]
  | some pi =>
      cases pi
      cases prepend <;> simp [pageInfoMergeOf, hpi]

theorem cacheNotifications_novel_merge_witness :
    (∃ n ∈ pageC3.items, n.id ∉ cachedIdsOf stC3) ∧
      ((cacheNotifications stC3 pageC3 true).itemsCache =
          some (if true then newItemsOf stC3 pageC3 ++ stC3.itemsCache.getD []
            else stC3.itemsCache.getD [] ++ newItemsOf stC3 pageC3) ∧
        (cacheNotifications stC3 pageC3 true).pageInfoCache =
          some (match stC3.pageInfoCache with
            | none => pageC3.pageInfo
            | some pi =>
                if true then ⟨pageC3.pageInfo.prev, pi.next⟩
                else ⟨pi.prev, pageC3.pageInfo.next⟩) ∧
        (cacheNotifications stC3 pageC3 true).latestTimestamp =
          stC3.latestTimestamp) ∧
      (cacheNotifications stC3 pageC3 true).itemsCache =
        some [⟨"x", .mention, some 9⟩, ⟨"y", .follow, none⟩,
          ⟨"a", .comment, some 3⟩, ⟨"b", .reaction, some 2⟩,
          ⟨"c", .mirror, some 1⟩] :=
  ⟨by decide, cacheNotifications_novel_merge stC3 pageC3 true (by decide),
    by decide⟩

/-- **C10** (confirmed): on the very first successful fetch — no
notification item cache exists yet — `getNewNotifications` returns the
empty `{}` result, with no notifications reported as new, even though the
fetched page is merged (prepend) into the cache. -/
theorem getNewNotifications_first_fetch_empty (st : NotifState)
    (res : PaginatedResult) (filter : Bool) (prefs : NotifPreferences)
    (h : st.itemsCache = none) :
    (getNewNotifications st true (some res) filter prefs).1 = ⟨none, none⟩ ∧
      (getNewNotifications st true (some res) filter prefs).2 =
        cacheNotifications st res true := by
  unfold getNewNotifications getPaginatedNotificationResult
  simp [h]

theorem getNewNotifications_first_fetch_empty_witness :
    (⟨none, none, none⟩ : NotifState).itemsCache = none ∧
      ((getNewNotifications ⟨none, none, none⟩ true (some pageC10) false
          prefsAll).1 = ⟨none, none⟩ ∧
        (getNewNotifications ⟨none, none, none⟩ true (some pageC10) false
          prefsAll).2 = cacheNotifications ⟨none, none, none⟩ pageC10 true) ∧
      (getNewNotifications ⟨none, none, none⟩ true (some pageC10) false
          prefsAll).2.itemsCache =
        some [⟨"a", .comment, some 4⟩, ⟨"b", .follow, none⟩] :=
  ⟨rfl,
    getNewNotifications_first_fetch_empty ⟨none, none, none⟩ pageC10 false
      prefsAll rfl,
    by decide⟩

theorem lookup_setTimestamp (m : MessageTimestampMap) (k : String) (v : Nat)
    (k' : String) :
    (setTimestamp m k v).lookup k' = if k' = k then some v else m.lookup k' := by
  rw [setTimestamp, List.lookup_cons]
  by_cases h : k' = k
  · rw [if_pos h, show (k' == k) = true from beq_iff_eq.mpr h]
  · rw [if_neg h, show (k' == k) = false from beq_eq_false_iff_ne.mpr h]

/-- **C6** (confirmed): for a present user and message, `isUnread` is true
iff the sender is not the current user and the message timestamp strictly
exceeds the stored (zero-defaulted) read timestamp for its topic; with the
map `{T1: 1000}`, a peer message at 999 is read, at 1001 unread, and a
message from the user's own address is read at every timestamp. -/
theorem isUnread_iff :
    (∀ (u : User) (msg : CompactMessage)
        (readTimestamps : MessageTimestampMap),
      isUnread (some u) (some msg) readTimestamps = true ↔
        (msg.senderAddress ≠ u.address ∧
          (readTimestamps.lookup msg.contentTopic).getD 0 < msg.timestamp)) ∧
      isUnread (some ⟨"me"⟩) (some ⟨999, "T1", "hi", "peer"⟩)
        [("T1", 1000)] = false ∧
      isUnread (some ⟨"me"⟩) (some ⟨1001, "T1", "hi", "peer"⟩)
        [("T1", 1000)] = true ∧
      (∀ t : Nat, isUnread (some ⟨"me"⟩) (some ⟨t, "T1", "hi", "me"⟩)
        [("T1", 1000)] = false) := by
  refine ⟨?_, by decide, by decide, ?_⟩
  · intro u msg readTimestamps
    by_cases h : msg.senderAddress = u.address <;> simp [isUnread, h]
  · intro t
    simp [isUnread]

/-- **C4** (corrected, counterexample): `markAllAsRead` plainly overwrites
the stored timestamp with the thread's latest-message timestamp.  With
`{T1: 1000}` stored, marking a thread whose latest message is timestamped
500 drops the stored value from 1000 to 500 — it decreases. -/
theorem markAllAsRead_decrease_cex :
    ((([("T1", 1000)] : MessageTimestampMap).lookup "T1").getD 0 = 1000) ∧
      (((markAllAsRead [("T1", 1000)]
          [⟨none, some ⟨500, "T1", "hello", "peer"⟩⟩]).1.lookup "T1").getD 0
        = 500) := by
  decide

theorem foldl_writeReadTimestamp_monotone (m0 : MessageTimestampMap)
    (threads : List Thread) :
    ∀ m : MessageTimestampMap,
      (∀ t ∈ threads, ∀ msg ∈ t.latestMessage,
        (m0.lookup msg.contentTopic).getD 0 ≤ msg.timestamp) →
      (∀ k, (m0.lookup k).getD 0 ≤ (m.lookup k).getD 0) →
      ∀ k, (m0.lookup k).getD 0 ≤
        ((threads.foldl writeReadTimestamp m).lookup k).getD 0 := by
  induction threads with
  | nil => intro m _ hm k; exact hm k
  | cons t rest ih =>
      intro m hf hm k
      refine ih (writeReadTimestamp m t) ?_ ?_ k
      · intro t' ht' msg hmsg
        exact hf t' (List.mem_cons_of_mem _ ht') msg hmsg
      · intro k'
        cases hlm : t.latestMessage with
        | none => simpa [writeReadTimestamp, hlm] using hm k'
        | some msg =>
            by_cases hts : msg.timestamp = 0
            · simpa [writeReadTimestamp, hlm, hts] using hm k'
            · simp only [writeReadTimestamp, hlm, hts, ne_eq,
                not_false_eq_true, if_true, lookup_setTimestamp]
              by_cases hk : k' = msg.contentTopic
              · rw [if_pos hk, Option.getD_some, hk]
                exact hf t (List.mem_cons_self _ _) msg
                  (Option.mem_def.mpr hlm)
              · rw [if_neg hk]
                exact hm k'

/-- **C4** (amended): the stored read timestamp for any topic never
decreases across a `markAllAsRead` call provided each supplied thread's
latest-message timestamp is at least the timestamp currently stored for
its topic; without that proviso the plain overwrite can move a timestamp
backwards. -/
theorem markAllAsRead_monotone (m : MessageTimestampMap)
    (threads : List Thread)
    (hfresh : ∀ t ∈ threads, ∀ msg ∈ t.latestMessage,
      (m.lookup msg.contentTopic).getD 0 ≤ msg.timestamp) :
    ∀ k, (m.lookup k).getD 0 ≤
      (((markAllAsRead m threads).1).lookup k).getD 0 := by
  intro k
  exact foldl_writeReadTimestamp_monotone m threads m hfresh
    (fun _ => Nat.le_refl _) k

theorem markAllAsRead_monotone_witness :
    (∀ t ∈ ([⟨none, some ⟨1500, "T1", "hey", "peer"⟩⟩,
        ⟨some true, some ⟨800, "T2", "yo", "peer"⟩⟩] : List Thread),
      ∀ msg ∈ t.latestMessage,
        ((([("T1", 1000)] : MessageTimestampMap)).lookup
          msg.contentTopic).getD 0 ≤ msg.timestamp) ∧
      ((([("T1", 1000)] : MessageTimestampMap)).lookup "T1").getD 0 ≤
        (((markAllAsRead [("T1", 1000)]
            [⟨none, some ⟨1500, "T1", "hey", "peer"⟩⟩,
              ⟨some true, some ⟨800, "T2", "yo", "peer"⟩⟩]).1).lookup
          "T1").getD 0 :=
  ⟨by decide,
    markAllAsRead_monotone [("T1", 1000)]
      [⟨none, some ⟨1500, "T1", "hey", "peer"⟩⟩,
        ⟨some true, some ⟨800, "T2", "yo", "peer"⟩⟩]
      (by decide) "T1"⟩

/-- **C8** (corrected, counterexample): with the first-run flag set and
topic `"T"` absent from the read-timestamp map, at wall-clock time 1000
and with a pre-existing message timestamped 500, the map entry is seeded
with 1000 — the current time — and not with the message's own timestamp
500 as the claim states. -/
theorem getReadTimestamp_seeds_now_cex :
    ((getReadTimestamp [] "T" true 1000).1.lookup "T" = some 1000) ∧
      ¬ ((getReadTimestamp [] "T" true 1000).1.lookup "T" = some 500) := by
  decide

/-- **C8** (amended): on the first-run batch path, a conversation topic
with no entry in the read-timestamp map is seeded with the current
wall-clock time, that time becomes the unread query's start time, and
every pre-existing message (timestamp strictly before the seeding time) is
excluded from the batch result — reported as read. -/
theorem getMessagesBatchConversation_first_run_seeding
    (m : MessageTimestampMap) (topic address : String)
    (msgs : List CompactMessage) (peerOnly : Bool) (now : Nat)
    (habsent : m.lookup topic = none) :
    ((getMessagesBatchConversation m topic address msgs true peerOnly true
        now).1.lookup topic = some now) ∧
      ∀ msg ∈ msgs, msg.timestamp < now →
        msg ∉ (getMessagesBatchConversation m topic address msgs true
          peerOnly true now).2 := by
  have h0 : (m.lookup topic).getD 0 = 0 := by simp [habsent]
  constructor
  · cases peerOnly <;>
      simp [getMessagesBatchConversation, getReadTimestamp, h0,
        lookup_setTimestamp]
  · intro msg _ hlt hmem
    cases peerOnly <;>
      simp_all [getMessagesBatchConversation, getReadTimestamp, h0,
        queryMessagesSince, lookup_setTimestamp, List.mem_filter] <;>
      omega

theorem getMessagesBatchConversation_first_run_seeding_witness :
    (([("U", 7)] : MessageTimestampMap).lookup "T" = none) ∧
      ((getMessagesBatchConversation [("U", 7)] "T" "me"
          [⟨500, "T", "old", "peer"⟩] true true true
          1000).1.lookup "T" = some 1000) ∧
      (⟨500, "T", "old", "peer"⟩ : CompactMessage) ∉
        (getMessagesBatchConversation [("U", 7)] "T" "me"
          [⟨500, "T", "old", "peer"⟩] true true true 1000).2 :=
  ⟨by decide,
    (getMessagesBatchConversation_first_run_seeding [("U", 7)] "T" "me"
      [⟨500, "T", "old", "peer"⟩] true 1000 (by decide)).1,
    (getMessagesBatchConversation_first_run_seeding [("U", 7)] "T" "me"
      [⟨500, "T", "old", "peer"⟩] true 1000 (by decide)).2
      ⟨500, "T", "old", "peer"⟩ (by decide) (by decide)⟩

theorem lookup_filter_ne {α : Type} (l : List (String × α)) (k : String) :
    (l.filter (fun p => p.1 ≠ k)).lookup k = none := by
  induction l with
  | nil => rfl
  | cons p rest ih =>
      by_cases h : p.1 = k
      · simpa [List.filter_cons, h] using ih
      · rw [List.filter_cons, if_pos (by simpa using h), List.lookup_cons,
          show (k == p.1) = false from beq_eq_false_iff_ne.mpr
            (fun he => h he.symm)]
        exact ih

theorem lookup_alarmsClear (alarms : AlarmMap) (name : String) :
    (alarmsClear alarms name).lookup name = none :=
  lookup_filter_ne alarms name

theorem lookup_alarmsCreate (alarms : AlarmMap) (name : String)
    (info : AlarmInfo) :
    (alarmsCreate alarms name info).lookup name = some info := by
  rw [alarmsCreate, List.lookup_cons, show (name == name) = true from
    beq_iff_eq.mpr rfl]

/-- **C5** (code bug): `setAlarm` does not clear the alarm registered under
its own `name` argument; it always clears the hard-coded notifications
alarm.  With both polls active, `setAlarm(ALARM_ID_MESSAGES, 5)` (the
`onSetMessagesAlarm` path) silently cancels the notifications poll, and the
pre-existing messages alarm survives the clear step untouched — only
Chrome's replace-on-create semantics prevents duplicate timers. -/
theorem setAlarm_clears_wrong_name_cex :
    ((setAlarm [(ALARM_ID_NOTIFICATIONS, ⟨some 2, some 0⟩),
        (ALARM_ID_MESSAGES, ⟨some 7, some 0⟩)] ALARM_ID_MESSAGES
        5).lookup ALARM_ID_NOTIFICATIONS = none) ∧
      ((clearAlarm [(ALARM_ID_NOTIFICATIONS, ⟨some 2, some 0⟩),
          (ALARM_ID_MESSAGES, ⟨some 7, some 0⟩)]
          ALARM_ID_NOTIFICATIONS).lookup ALARM_ID_MESSAGES =
        some ⟨some 7, some 0⟩) := by
  decide

/-- **C7** (confirmed): observing `Complete` for action id `A` leaves the
pending-action map without key `A` and the alarm named `A` cleared; each
non-terminal status (`Queued`, `Minting`, `Transferring`) instead upserts
the action's handle under `A` and arms a one-shot alarm named `A` with a
one-minute delay. -/
theorem checkProxyActionStatus_lifecycle (st : BackgroundState)
    (proxyActionId handle : String) :
    ((checkProxyActionStatus st proxyActionId handle
        (.proxyActionStatusResult .Complete)).pendingProxyActions.lookup
        proxyActionId = none ∧
      (checkProxyActionStatus st proxyActionId handle
        (.proxyActionStatusResult .Complete)).alarms.lookup proxyActionId =
        none) ∧
      ((checkProxyActionStatus st proxyActionId handle
            .proxyActionQueued).pendingProxyActions.lookup proxyActionId =
          some handle ∧
        (checkProxyActionStatus st proxyActionId handle
          .proxyActionQueued).alarms.lookup proxyActionId =
          some ⟨none, some 1⟩) ∧
      ((checkProxyActionStatus st proxyActionId handle
            (.proxyActionStatusResult .Minting)).pendingProxyActions.lookup
          proxyActionId = some handle ∧
        (checkProxyActionStatus st proxyActionId handle
          (.proxyActionStatusResult .Minting)).alarms.lookup proxyActionId =
          some ⟨none, some 1⟩) ∧
      ((checkProxyActionStatus st proxyActionId handle
            (.proxyActionStatusResult
              .Transferring)).pendingProxyActions.lookup
          proxyActionId = some handle ∧
        (checkProxyActionStatus st proxyActionId handle
          (.proxyActionStatusResult .Transferring)).alarms.lookup
          proxyActionId = some ⟨none, some 1⟩) := by
  refine ⟨⟨?_, ?_⟩, ?_, ?_, ?_⟩
  · exact lookup_filter_ne st.pendingProxyActions proxyActionId
  · exact lookup_filter_ne st.alarms proxyActionId
  all_goals
    exact ⟨by simp [checkProxyActionStatus, saveProxyAction,
        List.lookup_cons],
      by simp [checkProxyActionStatus, lookup_alarmsCreate]⟩

/-- **C9** (corrected, counterexample): when the last-opened timestamp is
unknown, `updateBadge` returns before touching the badge at all — the
previously rendered text (here `"5"`) persists — rather than setting the
empty string as the claim states. -/
theorem updateBadge_absent_timestamp_cex :
    updateBadge ⟨some "5", some "5 new notifications"⟩
        (some [⟨"n1", 10⟩]) none =
      ⟨some "5", some "5 new notifications"⟩ ∧
      ¬ (updateBadge ⟨some "5", some "5 new notifications"⟩
          (some [⟨"n1", 10⟩]) none).text = some "" := by
  decide

/-- **C9** (amended): given a known last-opened timestamp, the badge text
is set to the count of cached items created strictly after it — rendered
exactly between 1 and 99, as `"99+"` above 99 and as the empty (hidden)
string at zero, also when no cache exists; with an unknown last-opened
timestamp the badge is left untouched rather than hidden. -/
theorem updateBadge_renders_count (badge : BadgeState)
    (items : List NotificationV1) (ts : Nat) :
    ((updateBadge badge (some items) (some ts)).text =
        some (if (items.filter (fun n => ts < n.createdAt)).length = 0 then ""
          else if (items.filter (fun n => ts < n.createdAt)).length ≤ 99 then
            toString (items.filter (fun n => ts < n.createdAt)).length
          else "99+")) ∧
      (updateBadge badge none (some ts)).text = some "" ∧
      (∀ (b : BadgeState) (cache : Option (List NotificationV1)),
        updateBadge b cache none = b) := by
  refine ⟨?_, by simp [updateBadge, getNotificationCountSinceLastOpened],
    fun b cache => rfl⟩
  unfold updateBadge getNotificationCountSinceLastOpened
  by_cases hempty : items.isEmpty
  · rw [List.isEmpty_iff] at hempty
    subst hempty
    simp
  · simp only [hempty, if_false]
    by_cases h0 : (items.filter (fun n => ts < n.createdAt)).length = 0
    · simp [h0]
    · by_cases h99 : (items.filter (fun n => ts < n.createdAt)).length ≤ 99
      · have hgt : ¬ (items.filter (fun n => ts < n.createdAt)).length > 99 :=
          by omega
        have hpos : (items.filter (fun n => ts < n.createdAt)).length > 0 :=
          Nat.pos_of_ne_zero h0
        simp [h0, h99, hgt, hpos]
      · have hgt : (items.filter (fun n => ts < n.createdAt)).length > 99 :=
          by omega
        have hpos : (items.filter (fun n => ts < n.createdAt)).length > 0 :=
          by omega
        simp [h0, h99, hgt, hpos]
